import Mathlib

/-!
Verification development for the Starlink-Status telemetry core
(`src/starlinkclient.cpp`, `src/starlinkclient.h`).

The poller (`StarlinkClient`) issues three independent gRPC calls per
cycle (`fetchStatus`): Status, Location, History.  Each call either
succeeds with a typed response payload or fails with a gRPC status
error message.  We embed the response payload shapes the code actually
inspects, the cycle body as a pure function from the three call results
to the emitted Qt signals (events) and the `qWarning` diagnostic
reports, the timer/start/stop control state, and a small-step event-loop
machine for the cross-cycle ordering guarantee.
-/

namespace StarlinkStatus

/-- Device-info record read by `fetchStatus`: `info.id()` and
`info.hardware_version()` from the protobuf payload. -/
structure DeviceInfo where
  id : String
  hardware_version : String
deriving DecidableEq, Repr

/-- Wrapper mirroring `response.get_device_info()`, whose
`device_info()` accessor yields the `DeviceInfo` record. -/
structure GetDeviceInfoResponse where
  device_info : DeviceInfo
deriving DecidableEq, Repr

/-- Response payload of the Status call: the code checks
`response.has_get_device_info()`, modelled as an `Option`. -/
structure StatusResponse where
  get_device_info : Option GetDeviceInfoResponse
deriving DecidableEq, Repr

/-- Lat/lon/alt triple from `loc.lla()`.  The doubles carry no
arithmetic in the source (pure pass-through), so they are embedded as
rationals. -/
structure LLA where
  lat : Rat
  lon : Rat
  alt : Rat
deriving DecidableEq, Repr

/-- Mirrors `response.get_location()`: the code checks `loc.has_lla()`,
modelled as an `Option`. -/
structure GetLocationResponse where
  lla : Option LLA
deriving DecidableEq, Repr

/-- Response payload of the Location call: the code checks
`response.has_get_location()`. -/
structure LocationResponse where
  get_location : Option GetLocationResponse
deriving DecidableEq, Repr

/-- Response payload of the History call.  The source never reads any
field of it (`// Parsing history is complex ...`); we keep a sample
list so content-independence of the emitted event is expressible. -/
structure HistoryResponse where
  samples : List Rat
deriving DecidableEq, Repr

/-- Outcome of one gRPC call: `Status::ok()` with a response payload,
or a failure carrying `status.error_message()`. -/
abbrev RpcResult (α : Type) : Type := Except String α

/-- Whether a call outcome is `Status::ok()`. -/
def rpcOk {α : Type} : RpcResult α → Bool
  | Except.ok _ => true
  | Except.error _ => false

/-- The four Qt signals of `StarlinkClient`, as emitted events. -/
inductive Event where
  | statusChanged (connected : Bool)
  | satelliteInfoUpdated (id hardwareVersion : String)
  | locationUpdated (lat lon alt : Rat)
  | speedUpdated (downloadMbps uploadMbps latencyMs : Rat)
deriving DecidableEq, Repr

/-- Events emitted by step 1 of `fetchStatus` (lines 40-65): on success
emit `statusChanged(true)` and, if the payload carries device-info,
`satelliteInfoUpdated(id, hardware_version)`; on failure emit
`statusChanged(false)`. -/
def statusEvents : RpcResult StatusResponse → List Event
  | Except.ok response =>
      Event.statusChanged true ::
        (match response.get_device_info with
         | some g =>
             [Event.satelliteInfoUpdated g.device_info.id g.device_info.hardware_version]
         | none => [])
  | Except.error _ => [Event.statusChanged false]

/-- Diagnostic reports of step 1: the `qWarning` on Status failure
(line 63).  Steps 2 and 3 report nothing. -/
def statusReports : RpcResult StatusResponse → List String
  | Except.ok _ => []
  | Except.error msg => ["gRPC Status Failed: " ++ msg]

/-- Events emitted by step 2 of `fetchStatus` (lines 67-83): only if
the call is ok, the response has `get_location` and it has `lla`. -/
def locationEvents : RpcResult LocationResponse → List Event
  | Except.ok response =>
      match response.get_location with
      | some loc =>
          match loc.lla with
          | some p => [Event.locationUpdated p.lat p.lon p.alt]
          | none => []
      | none => []
  | Except.error _ => []

/-- Events emitted by step 3 of `fetchStatus` (lines 88-107): if the
History call is ok, emit the fixed placeholder sample
`speedUpdated(100.0f, 20.0f, 30.0f)`; the response payload is never
read. -/
def historyEvents : RpcResult HistoryResponse → List Event
  | Except.ok _ => [Event.speedUpdated 100 20 30]
  | Except.error _ => []

/-- One polling cycle, `StarlinkClient::fetchStatus` (lines 38-108):
the three call results of the cycle are inputs chosen by the network
environment; the output is the ordered list of emitted events and the
list of diagnostic reports. -/
def fetchStatus (st : RpcResult StatusResponse) (loc : RpcResult LocationResponse)
    (hist : RpcResult HistoryResponse) : List Event × List String :=
  (statusEvents st ++ locationEvents loc ++ historyEvents hist, statusReports st)

/-- Recognizes a `statusChanged` (ConnectionState) event. -/
def isStatusEvent : Event → Bool
  | Event.statusChanged _ => true
  | _ => false

/-- Recognizes a `satelliteInfoUpdated` (DeviceIdentity) event. -/
def isIdentityEvent : Event → Bool
  | Event.satelliteInfoUpdated _ _ => true
  | _ => false

/-- Recognizes a `locationUpdated` (GeoPosition) event. -/
def isLocationEvent : Event → Bool
  | Event.locationUpdated _ _ _ => true
  | _ => false

/-- Recognizes a `speedUpdated` (ThroughputSample) event. -/
def isSpeedEvent : Event → Bool
  | Event.speedUpdated _ _ _ => true
  | _ => false

lemma statusEvents_filter_status (st : RpcResult StatusResponse) :
    (statusEvents st).filter isStatusEvent = [Event.statusChanged (rpcOk st)] := by
  cases st with
  | ok r =>
      rcases r with ⟨di⟩
      cases di with
      | none => rfl
      | some g => rfl
  | error m => rfl

lemma locationEvents_filter_status (loc : RpcResult LocationResponse) :
    (locationEvents loc).filter isStatusEvent = [] := by
  cases loc with
  | ok r =>
      rcases r with ⟨gl⟩
      cases gl with
      | none => rfl
      | some g =>
          rcases g with ⟨p⟩
          cases p with
          | none => rfl
          | some q => rfl
  | error m => rfl

lemma historyEvents_filter_status (hist : RpcResult HistoryResponse) :
    (historyEvents hist).filter isStatusEvent = [] := by
  cases hist with
  | ok r => rfl
  | error m => rfl

lemma fetch_filter_status (st : RpcResult StatusResponse)
    (loc : RpcResult LocationResponse) (hist : RpcResult HistoryResponse) :
    (fetchStatus st loc hist).1.filter isStatusEvent = [Event.statusChanged (rpcOk st)] := by
  simp [fetchStatus, List.filter_append, statusEvents_filter_status,
    locationEvents_filter_status, historyEvents_filter_status]

/-- C1: every polling cycle emits exactly one ConnectionState event
(`statusChanged`), and its value is `true` iff the Status RPC call of
the cycle succeeded. -/
theorem fetchStatus_connectionState_unique (st : RpcResult StatusResponse)
    (loc : RpcResult LocationResponse) (hist : RpcResult HistoryResponse) :
    (fetchStatus st loc hist).1.filter isStatusEvent = [Event.statusChanged (rpcOk st)] :=
  fetch_filter_status st loc hist

lemma identityEvent_mem_statusEvents (st : RpcResult StatusResponse) (i h : String) :
    Event.satelliteInfoUpdated i h ∈ statusEvents st ↔
      ∃ r, st = Except.ok r ∧ r.get_device_info = some ⟨⟨i, h⟩⟩ := by
  cases st with
  | ok r =>
      rcases r with ⟨di⟩
      cases di with
      | none => simp [statusEvents]
      | some g =>
          rcases g with ⟨⟨gid, ghw⟩⟩
          simp [statusEvents]
          constructor
          · rintro ⟨a, b⟩
            exact ⟨a.symm, b.symm⟩
          · rintro ⟨a, b⟩
            exact ⟨a.symm, b.symm⟩
  | error m => simp [statusEvents]

lemma identityEvent_not_mem_locationEvents (loc : RpcResult LocationResponse)
    (i h : String) : Event.satelliteInfoUpdated i h ∉ locationEvents loc := by
  cases loc with
  | ok r =>
      rcases r with ⟨gl⟩
      cases gl with
      | none => simp [locationEvents]
      | some g =>
          rcases g with ⟨p⟩
          cases p with
          | none => simp [locationEvents]
          | some q => simp [locationEvents]
  | error m => simp [locationEvents]

lemma identityEvent_not_mem_historyEvents (hist : RpcResult HistoryResponse)
    (i h : String) : Event.satelliteInfoUpdated i h ∉ historyEvents hist := by
  cases hist with
  | ok r => simp [historyEvents]
  | error m => simp [historyEvents]

lemma statusChanged_false_mem (st : RpcResult StatusResponse)
    (loc : RpcResult LocationResponse) (hist : RpcResult HistoryResponse) :
    Event.statusChanged false ∈ (fetchStatus st loc hist).1 → rpcOk st = false := by
  intro hmem
  by_contra hne
  have hok : rpcOk st = true := by
    cases hval : rpcOk st with
    | true => rfl
    | false => exact absurd hval hne
  have : (fetchStatus st loc hist).1.filter isStatusEvent
      = [Event.statusChanged (rpcOk st)] :=
    fetch_filter_status st loc hist
  have hmf : Event.statusChanged false ∈
      (fetchStatus st loc hist).1.filter isStatusEvent :=
    List.mem_filter.mpr ⟨hmem, rfl⟩
  rw [this, hok] at hmf
  simp at hmf

lemma identityEvent_mem_fetch (st : RpcResult StatusResponse)
    (loc : RpcResult LocationResponse) (hist : RpcResult HistoryResponse)
    (i h : String) :
    Event.satelliteInfoUpdated i h ∈ (fetchStatus st loc hist).1 ↔
      ∃ r, st = Except.ok r ∧ r.get_device_info = some ⟨⟨i, h⟩⟩ := by
  rw [show (fetchStatus st loc hist).1
      = statusEvents st ++ locationEvents loc ++ historyEvents hist from rfl]
  simp only [List.mem_append]
  constructor
  · intro hmem
    rcases hmem with (h1 | h2) | h3
    · exact (identityEvent_mem_statusEvents st i h).mp h1
    · exact absurd h2 (identityEvent_not_mem_locationEvents loc i h)
    · exact absurd h3 (identityEvent_not_mem_historyEvents hist i h)
  · intro hr
    exact Or.inl (Or.inl ((identityEvent_mem_statusEvents st i h).mpr hr))

/-- C2: a DeviceIdentity event (`satelliteInfoUpdated`, carrying the id
and hardware version of the response payload) is emitted iff the Status
call succeeded and its response carries a device-info sub-record, and
never in a cycle whose ConnectionState event was `false`. -/
theorem fetchStatus_deviceIdentity_iff (st : RpcResult StatusResponse)
    (loc : RpcResult LocationResponse) (hist : RpcResult HistoryResponse)
    (i h : String) :
    (Event.satelliteInfoUpdated i h ∈ (fetchStatus st loc hist).1 ↔
      ∃ r, st = Except.ok r ∧ r.get_device_info = some ⟨⟨i, h⟩⟩) ∧
    (Event.statusChanged false ∈ (fetchStatus st loc hist).1 →
      Event.satelliteInfoUpdated i h ∉ (fetchStatus st loc hist).1) := by
  refine ⟨identityEvent_mem_fetch st loc hist i h, ?_⟩
  intro hfalse hmem
  have hfail : rpcOk st = false := statusChanged_false_mem st loc hist hfalse
  have hr := (identityEvent_mem_fetch st loc hist i h).mp hmem
  rcases hr with ⟨r, hst, _⟩
  rw [hst] at hfail
  simp [rpcOk] at hfail

/-- Witness for C2: a successful Status call carrying device-info does
emit the DeviceIdentity event; a failed Status call emits none. -/
theorem fetchStatus_deviceIdentity_iff_witness :
    Event.satelliteInfoUpdated "SAT123" "rev2" ∈
      (fetchStatus (Except.ok ⟨some ⟨⟨"SAT123", "rev2"⟩⟩⟩) (Except.error "l")
        (Except.error "g")).1 ∧
    Event.satelliteInfoUpdated "SAT123" "rev2" ∉
      (fetchStatus (Except.error "down") (Except.error "l")
        (Except.error "g")).1 :=
  ⟨(fetchStatus_deviceIdentity_iff (Except.ok ⟨some ⟨⟨"SAT123", "rev2"⟩⟩⟩)
      (Except.error "l") (Except.error "g") "SAT123" "rev2").1.mpr
      ⟨⟨some ⟨⟨"SAT123", "rev2"⟩⟩⟩, rfl, rfl⟩,
   (fetchStatus_deviceIdentity_iff (Except.error "down")
      (Except.error "l") (Except.error "g") "SAT123" "rev2").2 (by decide)⟩

lemma statusEvents_filter_location (st : RpcResult StatusResponse) :
    (statusEvents st).filter isLocationEvent = [] := by
  cases st with
  | ok r =>
      rcases r with ⟨di⟩
      cases di with
      | none => rfl
      | some g => rfl
  | error m => rfl

lemma statusEvents_filter_speed (st : RpcResult StatusResponse) :
    (statusEvents st).filter isSpeedEvent = [] := by
  cases st with
  | ok r =>
      rcases r with ⟨di⟩
      cases di with
      | none => rfl
      | some g => rfl
  | error m => rfl

lemma locationEvents_filter_location (loc : RpcResult LocationResponse) :
    (locationEvents loc).filter isLocationEvent = locationEvents loc := by
  cases loc with
  | ok r =>
      rcases r with ⟨gl⟩
      cases gl with
      | none => rfl
      | some g =>
          rcases g with ⟨p⟩
          cases p with
          | none => rfl
          | some q => rfl
  | error m => rfl

lemma locationEvents_filter_speed (loc : RpcResult LocationResponse) :
    (locationEvents loc).filter isSpeedEvent = [] := by
  cases loc with
  | ok r =>
      rcases r with ⟨gl⟩
      cases gl with
      | none => rfl
      | some g =>
          rcases g with ⟨p⟩
          cases p with
          | none => rfl
          | some q => rfl
  | error m => rfl

lemma historyEvents_filter_location (hist : RpcResult HistoryResponse) :
    (historyEvents hist).filter isLocationEvent = [] := by
  cases hist with
  | ok r => rfl
  | error m => rfl

lemma historyEvents_filter_speed (hist : RpcResult HistoryResponse) :
    (historyEvents hist).filter isSpeedEvent = historyEvents hist := by
  cases hist with
  | ok r => rfl
  | error m => rfl

lemma fetch_filter_location (st : RpcResult StatusResponse)
    (loc : RpcResult LocationResponse) (hist : RpcResult HistoryResponse) :
    (fetchStatus st loc hist).1.filter isLocationEvent = locationEvents loc := by
  simp [fetchStatus, List.filter_append, statusEvents_filter_location,
    locationEvents_filter_location, historyEvents_filter_location]

lemma fetch_filter_speed (st : RpcResult StatusResponse)
    (loc : RpcResult LocationResponse) (hist : RpcResult HistoryResponse) :
    (fetchStatus st loc hist).1.filter isSpeedEvent = historyEvents hist := by
  simp [fetchStatus, List.filter_append, statusEvents_filter_speed,
    locationEvents_filter_speed, historyEvents_filter_speed]

/-- C3: GeoPosition and ThroughputSample emission within a cycle depends
only on the Location and History outcomes, not on the Status outcome;
in particular, a cycle with a failed Status call and successful Location
(with resolved position) and History calls emits exactly
`statusChanged(false)`, the `locationUpdated` event and the
`speedUpdated` event, with no DeviceIdentity event. -/
theorem fetchStatus_geo_speed_independent (st1 st2 : RpcResult StatusResponse)
    (loc : RpcResult LocationResponse) (hist : RpcResult HistoryResponse)
    (msg : String) (lat lon alt : Rat) (hresp : HistoryResponse) :
    ((fetchStatus st1 loc hist).1.filter isLocationEvent
      = (fetchStatus st2 loc hist).1.filter isLocationEvent) ∧
    ((fetchStatus st1 loc hist).1.filter isSpeedEvent
      = (fetchStatus st2 loc hist).1.filter isSpeedEvent) ∧
    (fetchStatus (Except.error msg) (Except.ok ⟨some ⟨some ⟨lat, lon, alt⟩⟩⟩)
        (Except.ok hresp)
      = ([Event.statusChanged false, Event.locationUpdated lat lon alt,
          Event.speedUpdated 100 20 30], ["gRPC Status Failed: " ++ msg])) := by
  refine ⟨?_, ?_, rfl⟩
  · rw [fetch_filter_location st1 loc hist, fetch_filter_location st2 loc hist]
  · rw [fetch_filter_speed st1 loc hist, fetch_filter_speed st2 loc hist]

/-- Rank of each event kind in the fixed per-cycle emission order. -/
def kindIndex : Event → Nat
  | Event.statusChanged _ => 0
  | Event.satelliteInfoUpdated _ _ => 1
  | Event.locationUpdated _ _ _ => 2
  | Event.speedUpdated _ _ _ => 3

lemma statusEvents_pairwise (st : RpcResult StatusResponse) :
    List.Pairwise (fun a b => kindIndex a < kindIndex b) (statusEvents st) := by
  cases st with
  | ok r =>
      rcases r with ⟨di⟩
      cases di with
      | none => simp [statusEvents]
      | some g => simp [statusEvents, kindIndex]
  | error m => simp [statusEvents]

lemma statusEvents_kind_le (st : RpcResult StatusResponse) :
    ∀ e ∈ statusEvents st, kindIndex e ≤ 1 := by
  cases st with
  | ok r =>
      rcases r with ⟨di⟩
      cases di with
      | none => simp [statusEvents, kindIndex]
      | some g => simp [statusEvents, kindIndex]
  | error m => simp [statusEvents, kindIndex]

lemma locationEvents_kind_eq (loc : RpcResult LocationResponse) :
    ∀ e ∈ locationEvents loc, kindIndex e = 2 := by
  cases loc with
  | ok r =>
      rcases r with ⟨gl⟩
      cases gl with
      | none => simp [locationEvents]
      | some g =>
          rcases g with ⟨p⟩
          cases p with
          | none => simp [locationEvents]
          | some q => simp [locationEvents, kindIndex]
  | error m => simp [locationEvents]

lemma locationEvents_short (loc : RpcResult LocationResponse) :
    (locationEvents loc).length ≤ 1 := by
  cases loc with
  | ok r =>
      rcases r with ⟨gl⟩
      cases gl with
      | none => simp [locationEvents]
      | some g =>
          rcases g with ⟨p⟩
          cases p with
          | none => simp [locationEvents]
          | some q => simp [locationEvents]
  | error m => simp [locationEvents]

lemma historyEvents_kind_eq (hist : RpcResult HistoryResponse) :
    ∀ e ∈ historyEvents hist, kindIndex e = 3 := by
  cases hist with
  | ok r => simp [historyEvents, kindIndex]
  | error m => simp [historyEvents]

lemma historyEvents_short (hist : RpcResult HistoryResponse) :
    (historyEvents hist).length ≤ 1 := by
  cases hist with
  | ok r => simp [historyEvents]
  | error m => simp [historyEvents]

lemma pairwise_of_short {α : Type} (R : α → α → Prop) :
    ∀ l : List α, l.length ≤ 1 → List.Pairwise R l
  | [], _ => List.Pairwise.nil
  | [a], _ => by simp
  | a :: b :: l, hlen => by simp at hlen

/-- C4: within every cycle the emitted events appear in the fixed order
ConnectionState, then DeviceIdentity (if any), then GeoPosition (if
any), then ThroughputSample (if any): the kind ranks along the emitted
list are strictly increasing. -/
theorem fetchStatus_event_order (st : RpcResult StatusResponse)
    (loc : RpcResult LocationResponse) (hist : RpcResult HistoryResponse) :
    List.Pairwise (fun a b => kindIndex a < kindIndex b)
      (fetchStatus st loc hist).1 := by
  rw [show (fetchStatus st loc hist).1
      = statusEvents st ++ locationEvents loc ++ historyEvents hist from rfl]
  rw [List.pairwise_append, List.pairwise_append]
  refine ⟨⟨statusEvents_pairwise st,
    pairwise_of_short _ _ (locationEvents_short loc), ?_⟩,
    pairwise_of_short _ _ (historyEvents_short hist), ?_⟩
  · intro a ha b hb
    have h1 := statusEvents_kind_le st a ha
    have h2 := locationEvents_kind_eq loc b hb
    omega
  · intro a ha b hb
    have h3 := historyEvents_kind_eq hist b hb
    rcases List.mem_append.mp ha with h4 | h5
    · have h1 := statusEvents_kind_le st a h4
      omega
    · have h2 := locationEvents_kind_eq loc a h5
      omega

/-- C5: per-kind failures of the Location call (failed, or response
without a resolved position) and of the History call are silent: no
event of that kind is emitted and nothing is reported; the diagnostic
reports depend only on the Status outcome and are empty whenever the
Status call succeeded, so the only failure ever reported is a Status
failure. -/
theorem fetchStatus_silent_degradation (st : RpcResult StatusResponse)
    (loc : RpcResult LocationResponse) (hist : RpcResult HistoryResponse) :
    (rpcOk st = true → (fetchStatus st loc hist).2 = []) ∧
    (∀ loc2 hist2, (fetchStatus st loc hist).2 = (fetchStatus st loc2 hist2).2) ∧
    (rpcOk loc = false → (fetchStatus st loc hist).1.filter isLocationEvent = []) ∧
    (∀ r, loc = Except.ok r → (∀ g, r.get_location = some g → g.lla = none) →
      (fetchStatus st loc hist).1.filter isLocationEvent = []) ∧
    (rpcOk hist = false → (fetchStatus st loc hist).1.filter isSpeedEvent = []) := by
  refine ⟨?_, fun loc2 hist2 => rfl, ?_, ?_, ?_⟩
  · intro hok
    cases st with
    | ok r => rfl
    | error m => simp [rpcOk] at hok
  · intro hfail
    rw [fetch_filter_location]
    cases loc with
    | ok r => simp [rpcOk] at hfail
    | error m => rfl
  · intro r hr hres
    subst hr
    rw [fetch_filter_location]
    rcases r with ⟨gl⟩
    cases gl with
    | none => rfl
    | some g =>
        have hg : g.lla = none := hres g rfl
        rcases g with ⟨p⟩
        simp only at hg
        subst hg
        rfl
  · intro hfail
    rw [fetch_filter_speed]
    cases hist with
    | ok r => simp [rpcOk] at hfail
    | error m => rfl

/-- Witness for C5 at concrete inputs: a successful Status call with a
failed Location call, an unresolved-position Location response, and a
failed History call. -/
theorem fetchStatus_silent_degradation_witness :
    (fetchStatus (Except.ok ⟨none⟩) (Except.error "lost")
        (Except.error "hfail")).2 = [] ∧
    (fetchStatus (Except.ok ⟨none⟩) (Except.error "lost")
        (Except.error "hfail")).1.filter isLocationEvent = [] ∧
    (fetchStatus (Except.ok ⟨none⟩) (Except.ok ⟨some ⟨none⟩⟩)
        (Except.error "hfail")).1.filter isLocationEvent = [] ∧
    (fetchStatus (Except.ok ⟨none⟩) (Except.error "lost")
        (Except.error "hfail")).1.filter isSpeedEvent = [] := by
  refine ⟨(fetchStatus_silent_degradation (Except.ok ⟨none⟩)
      (Except.error "lost") (Except.error "hfail")).1 rfl,
    (fetchStatus_silent_degradation (Except.ok ⟨none⟩)
      (Except.error "lost") (Except.error "hfail")).2.2.1 rfl,
    (fetchStatus_silent_degradation (Except.ok ⟨none⟩)
      (Except.ok ⟨some ⟨none⟩⟩) (Except.error "hfail")).2.2.2.1
      ⟨some ⟨none⟩⟩ rfl ?_,
    (fetchStatus_silent_degradation (Except.ok ⟨none⟩)
      (Except.error "lost") (Except.error "hfail")).2.2.2.2 rfl⟩
  intro g hg
  injection hg with h2
  rw [← h2]

/-- C6: in every cycle whose History call succeeds, a ThroughputSample
event is emitted carrying the fixed placeholder values
(downloadMbps 100, uploadMbps 20, latencyMs 30), independent of the
content of the History response payload. -/
theorem fetchStatus_throughput_placeholder (st : RpcResult StatusResponse)
    (loc : RpcResult LocationResponse) (hresp : HistoryResponse) :
    (fetchStatus st loc (Except.ok hresp)).1.filter isSpeedEvent
      = [Event.speedUpdated 100 20 30] := by
  rw [fetch_filter_speed]
  rfl

/-- Control state of one `StarlinkClient` instance: whether the poll
timer is armed (`QTimer` active), its period in milliseconds, and
whether the object has been destroyed.  Running = timer armed,
Idle = timer not armed. -/
structure ClientState where
  timerArmed : Bool
  timerIntervalMs : Nat
  destroyed : Bool
deriving DecidableEq, Repr

/-- State right after the constructor (lines 11-20): the timer exists
but is not started (`QTimer` defaults to interval 0, inactive). -/
def initClient : ClientState :=
  { timerArmed := false, timerIntervalMs := 0, destroyed := false }

/-- The operations on a `StarlinkClient` instance: the two public
control calls, a timer-timeout delivery, and destruction. -/
inductive ClientOp where
  | startMonitoring
  | stopMonitoring
  | timerTimeout
  | destruct
deriving DecidableEq, Repr

/-- One operation on the client control state, returning the new state
and the number of polling cycles performed synchronously by the
operation.  `startMonitoring` (lines 27-31) starts the timer with a
5000 ms period and runs one immediate `fetchStatus` cycle;
`stopMonitoring` (lines 33-36) stops the timer; a timer timeout runs
one cycle when the timer is armed (line 19 connects the timeout signal
to `fetchStatus`); the destructor (lines 22-25) calls
`stopMonitoring`.  On a destroyed object no operation runs. -/
def clientStep (s : ClientState) : ClientOp → ClientState × Nat
  | ClientOp.startMonitoring =>
      if s.destroyed then (s, 0)
      else ({ s with timerArmed := true, timerIntervalMs := 5000 }, 1)
  | ClientOp.stopMonitoring =>
      if s.destroyed then (s, 0)
      else ({ s with timerArmed := false }, 0)
  | ClientOp.timerTimeout =>
      if s.destroyed then (s, 0)
      else (s, if s.timerArmed then 1 else 0)
  | ClientOp.destruct =>
      if s.destroyed then (s, 0)
      else ({ s with timerArmed := false, destroyed := true }, 0)

/-- Runs a sequence of operations, accumulating the cycle count. -/
def runOps (s : ClientState) : List ClientOp → ClientState × Nat
  | [] => (s, 0)
  | op :: ops =>
      let r := clientStep s op
      let r2 := runOps r.1 ops
      (r2.1, r.2 + r2.2)

/-- C7: `start()` from Idle transitions to Running, performs one
immediate cycle and arms the repeating timer with a 5000 ms period;
`start()` while already Running leaves the timer arming state unchanged
(still Running with the same period) yet still performs one immediate
cycle. -/
theorem startMonitoring_spec (s : ClientState) (hd : s.destroyed = false) :
    ((clientStep s ClientOp.startMonitoring).1.timerArmed = true ∧
     (clientStep s ClientOp.startMonitoring).1.timerIntervalMs = 5000 ∧
     (clientStep s ClientOp.startMonitoring).2 = 1) ∧
    (s.timerArmed = true → s.timerIntervalMs = 5000 →
      (clientStep s ClientOp.startMonitoring).1 = s) := by
  constructor
  · simp [clientStep, hd]
  · intro ha hi
    rcases s with ⟨a, i, d⟩
    simp only at ha hi hd
    subst ha hi hd
    rfl

/-- Witness for C7: starting from the freshly constructed Idle state
and re-starting from the Running state. -/
theorem startMonitoring_spec_witness :
    ((clientStep initClient ClientOp.startMonitoring).1.timerArmed = true ∧
     (clientStep initClient ClientOp.startMonitoring).1.timerIntervalMs = 5000 ∧
     (clientStep initClient ClientOp.startMonitoring).2 = 1) ∧
    (clientStep (⟨true, 5000, false⟩ : ClientState)
      ClientOp.startMonitoring).1 = ⟨true, 5000, false⟩ :=
  ⟨(startMonitoring_spec initClient rfl).1,
   (startMonitoring_spec ⟨true, 5000, false⟩ rfl).2 rfl rfl⟩

/-- C8: the poller is reusable: `stop()` transitions to Idle, disarms
the timer and performs no cycle, and a subsequent `start()` yields
exactly the same state and the same one immediate cycle as a first
`start()` on a freshly constructed instance. -/
theorem stop_start_resumes (s : ClientState) (hd : s.destroyed = false) :
    (clientStep s ClientOp.stopMonitoring).1.timerArmed = false ∧
    (clientStep s ClientOp.stopMonitoring).2 = 0 ∧
    clientStep (clientStep s ClientOp.stopMonitoring).1 ClientOp.startMonitoring
      = clientStep initClient ClientOp.startMonitoring := by
  refine ⟨by simp [clientStep, hd], by simp [clientStep, hd], ?_⟩
  rcases s with ⟨a, i, d⟩
  simp only at hd
  subst hd
  simp [clientStep, initClient]

/-- Witness for C8 at a Running instance. -/
theorem stop_start_resumes_witness :
    (clientStep (⟨true, 5000, false⟩ : ClientState)
        ClientOp.stopMonitoring).1.timerArmed = false ∧
    (clientStep (⟨true, 5000, false⟩ : ClientState)
        ClientOp.stopMonitoring).2 = 0 ∧
    clientStep (clientStep (⟨true, 5000, false⟩ : ClientState)
        ClientOp.stopMonitoring).1 ClientOp.startMonitoring
      = clientStep initClient ClientOp.startMonitoring :=
  stop_start_resumes ⟨true, 5000, false⟩ rfl

/-- C10: destruction performs a `stop()`: the destructor disarms the
timer, performs no cycle, and afterwards no sequence of operations runs
any further cycle or changes the state; this holds from any live state,
Idle or Running. -/
theorem destruct_stops (s : ClientState) (ops : List ClientOp)
    (hd : s.destroyed = false) :
    (clientStep s ClientOp.destruct).1.timerArmed = false ∧
    (clientStep s ClientOp.destruct).2 = 0 ∧
    (runOps (clientStep s ClientOp.destruct).1 ops).2 = 0 ∧
    (runOps (clientStep s ClientOp.destruct).1 ops).1
      = (clientStep s ClientOp.destruct).1 := by
  have hstep : ∀ t : ClientState, t.destroyed = true →
      ∀ op : ClientOp, clientStep t op = (t, 0) := by
    intro t ht op
    cases op <;> simp [clientStep, ht]
  have hrun : ∀ (l : List ClientOp) (t : ClientState), t.destroyed = true →
      runOps t l = (t, 0) := by
    intro l
    induction l with
    | nil => intro t ht; rfl
    | cons op l2 ih =>
        intro t ht
        simp [runOps, hstep t ht op, ih t ht]
  have hd2 : (clientStep s ClientOp.destruct).1.destroyed = true := by
    simp [clientStep, hd]
  refine ⟨by simp [clientStep, hd], by simp [clientStep, hd], ?_, ?_⟩
  · rw [hrun ops _ hd2]
  · rw [hrun ops _ hd2]

/-- Witness for C10: destroying a Running instance, then delivering
further operations. -/
theorem destruct_stops_witness :
    (clientStep (⟨true, 5000, false⟩ : ClientState)
        ClientOp.destruct).1.timerArmed = false ∧
    (clientStep (⟨true, 5000, false⟩ : ClientState) ClientOp.destruct).2 = 0 ∧
    (runOps (clientStep (⟨true, 5000, false⟩ : ClientState)
        ClientOp.destruct).1
      [ClientOp.timerTimeout, ClientOp.startMonitoring,
       ClientOp.timerTimeout]).2 = 0 ∧
    (runOps (clientStep (⟨true, 5000, false⟩ : ClientState)
        ClientOp.destruct).1
      [ClientOp.timerTimeout, ClientOp.startMonitoring,
       ClientOp.timerTimeout]).1
      = (clientStep (⟨true, 5000, false⟩ : ClientState) ClientOp.destruct).1 :=
  destruct_stops ⟨true, 5000, false⟩
    [ClientOp.timerTimeout, ClientOp.startMonitoring, ClientOp.timerTimeout] rfl

/-- The three call results the network environment supplies to one
cycle of `fetchStatus`. -/
structure CycleInput where
  st : RpcResult StatusResponse
  loc : RpcResult LocationResponse
  hist : RpcResult HistoryResponse

/-- Events emitted when phase `p` of a cycle returns: phase 0 is the
Status call block, phase 1 the Location call block, phase 2 the History
call block of `fetchStatus`. -/
def phaseEvents (inp : CycleInput) : Nat → List Event
  | 0 => statusEvents inp.st
  | 1 => locationEvents inp.loc
  | _ => historyEvents inp.hist

/-- State of the single-threaded Qt event loop driving the poller:
whether the `QTimer` is armed, how many timeout deliveries are queued,
the in-flight cycle (its inputs and the next call phase) if any, the
index of the next cycle to start, and the tagged global event trace.
`fetchStatus` runs on the same thread as the event loop, so a timer
that fires while a cycle's blocking calls are outstanding only queues a
timeout event; the queued timeout is dispatched after the running
cycle returns. -/
structure LoopState where
  armed : Bool
  pending : Nat
  inCycle : Option (CycleInput × Nat)
  cycleIdx : Nat
  trace : List (Nat × Event)

/-- Loop state right after `startMonitoring`: timer armed and the
immediate initial `fetchStatus` queued. -/
def initLoop : LoopState :=
  { armed := true, pending := 1, inCycle := none, cycleIdx := 0, trace := [] }

/-- Small-step transitions of the event loop.  A timer fire may happen
at any time while armed, in particular while a cycle's calls are still
outstanding (call latency above the tick interval just queues several
timeouts); a cycle is dispatched from the queue only when no cycle is
in flight, because `fetchStatus` occupies the single thread until it
returns; each call of the in-flight cycle returns after arbitrary
latency and appends its events, tagged with the cycle index, to the
trace; `stopMonitoring` merely disarms and `startMonitoring` re-arms
and queues an immediate cycle, neither touching the in-flight cycle. -/
inductive LoopStep : LoopState → LoopState → Prop where
  | timerFire (s : LoopState) : s.armed = true →
      LoopStep s { s with pending := s.pending + 1 }
  | stopCall (s : LoopState) :
      LoopStep s { s with armed := false }
  | startCall (s : LoopState) :
      LoopStep s { s with armed := true, pending := s.pending + 1 }
  | dispatch (s : LoopState) (inp : CycleInput) (n : Nat) :
      s.inCycle = none → s.pending = n + 1 →
      LoopStep s { s with pending := n, inCycle := some (inp, 0) }
  | callReturn (s : LoopState) (inp : CycleInput) (p : Nat) :
      s.inCycle = some (inp, p) → p < 2 →
      LoopStep s
        { s with
          inCycle := some (inp, p + 1),
          trace := s.trace ++ (phaseEvents inp p).map (fun e => (s.cycleIdx, e)) }
  | cycleFinish (s : LoopState) (inp : CycleInput) :
      s.inCycle = some (inp, 2) →
      LoopStep s
        { s with
          inCycle := none,
          cycleIdx := s.cycleIdx + 1,
          trace := s.trace ++ (phaseEvents inp 2).map (fun e => (s.cycleIdx, e)) }

/-- Loop states reachable from the started poller. -/
inductive LoopReachable : LoopState → Prop where
  | init : LoopReachable initLoop
  | step {s t : LoopState} : LoopReachable s → LoopStep s t → LoopReachable t

lemma pairwise_of_forall_rel {α : Type} {R : α → α → Prop} (h : ∀ a b, R a b) :
    ∀ l : List α, List.Pairwise R l
  | [] => List.Pairwise.nil
  | a :: l => List.Pairwise.cons (fun b _ => h a b) (pairwise_of_forall_rel h l)

lemma loopStep_preserves {s t : LoopState} (h : LoopStep s t)
    (hb : ∀ x ∈ s.trace, x.1 ≤ s.cycleIdx)
    (hm : List.Pairwise (fun a b : Nat × Event => a.1 ≤ b.1) s.trace) :
    (∀ x ∈ t.trace, x.1 ≤ t.cycleIdx) ∧
    List.Pairwise (fun a b : Nat × Event => a.1 ≤ b.1) t.trace := by
  cases h with
  | timerFire ha => exact ⟨hb, hm⟩
  | stopCall => exact ⟨hb, hm⟩
  | startCall => exact ⟨hb, hm⟩
  | dispatch inp n h1 h2 => exact ⟨hb, hm⟩
  | callReturn inp p h1 h2 =>
      constructor
      · intro x hx
        rcases List.mem_append.mp hx with h3 | h4
        · exact hb x h3
        · rcases List.mem_map.mp h4 with ⟨e, he, rfl⟩
          exact le_refl _
      · rw [List.pairwise_append]
        refine ⟨hm, ?_, ?_⟩
        · rw [List.pairwise_map]
          exact pairwise_of_forall_rel (fun a b => le_refl _) _
        · intro a ha b hbm
          rcases List.mem_map.mp hbm with ⟨e, he, rfl⟩
          exact hb a ha
  | cycleFinish inp h1 =>
      constructor
      · intro x hx
        rcases List.mem_append.mp hx with h3 | h4
        · exact le_trans (hb x h3) (Nat.le_succ _)
        · rcases List.mem_map.mp h4 with ⟨e, he, rfl⟩
          exact Nat.le_succ _
      · rw [List.pairwise_append]
        refine ⟨hm, ?_, ?_⟩
        · rw [List.pairwise_map]
          exact pairwise_of_forall_rel (fun a b => le_refl _) _
        · intro a ha b hbm
          rcases List.mem_map.mp hbm with ⟨e, he, rfl⟩
          exact hb a ha

lemma loopReachable_inv {s : LoopState} (h : LoopReachable s) :
    (∀ x ∈ s.trace, x.1 ≤ s.cycleIdx) ∧
    List.Pairwise (fun a b : Nat × Event => a.1 ≤ b.1) s.trace := by
  induction h with
  | init =>
      constructor
      · intro x hx
        simp [initLoop] at hx
      · simp [initLoop]
  | step h1 h2 ih => exact loopStep_preserves h2 ih.1 ih.2

/-- C9: cycles never overlap.  In every reachable state of the
single-threaded event loop — for any tick interval and any call
latency, including timers firing repeatedly while a cycle's calls are
outstanding — a cycle is only dispatched when no cycle is in flight
(the `dispatch` rule of `LoopStep`), and consequently the global event
trace is ordered by cycle index: all events of cycle N are emitted
before any event of cycle N+1. -/
theorem loop_cycles_never_interleave (s : LoopState) (h : LoopReachable s) :
    List.Pairwise (fun a b : Nat × Event => a.1 ≤ b.1) s.trace :=
  (loopReachable_inv h).2

/-- Cycle input with all three calls failing, used by the C9 witness. -/
def demoInput : CycleInput :=
  ⟨Except.error "unreachable", Except.error "unreachable",
   Except.error "unreachable"⟩

/-- Witness for C9: the state reached from the started poller by
dispatching the initial cycle, a timer fire while its Status call is
outstanding, and the Status call returning. -/
theorem loop_cycles_never_interleave_witness :
    List.Pairwise (fun a b : Nat × Event => a.1 ≤ b.1)
      (LoopState.mk true 1 (some (demoInput, 1)) 0
        [(0, Event.statusChanged false)]).trace :=
  loop_cycles_never_interleave _
    (LoopReachable.step
      (LoopReachable.step
        (LoopReachable.step LoopReachable.init
          (LoopStep.dispatch initLoop demoInput 0 rfl rfl))
        (LoopStep.timerFire _ rfl))
      (LoopStep.callReturn _ demoInput 0 rfl (by decide)))

end StarlinkStatus
